import Mathlib

/-!
Shallow embedding of the synchronization core of `src/App.js` (a React Native
client).  The mutable component state of the `App` function component —
`messages` (the feed), `carNumber` (the staged identifier), `image` (the staged
attachment) — is modelled as an explicit `AppState` record, and every handler
that mutates it (`ws.current.onmessage`, the `TextInput` `onChangeText`
callback, `uploadImage`, `sendCarNumber`, and the two image pickers) is
modelled as a pure state transformer.  Network interaction is modelled by
passing the outcome of the single `fetch` call (`none` when `fetch` itself
throws, otherwise the `HttpResponse` it resolved to) as an explicit argument.
-/

namespace CarApp

/-- Model of a JavaScript JSON value as produced by `JSON.parse`.  Numbers keep
their source lexeme (the claims under study never inspect numeric values, so
the double conversion performed by JavaScript is not modelled); object members
are kept in textual order. -/
inductive Json where
  | null : Json
  | bool : Bool → Json
  | num : String → Json
  | str : String → Json
  | arr : List Json → Json
  | obj : List (String × Json) → Json
deriving Repr

/-- JSON insignificant whitespace (RFC 8259: space, tab, line feed, carriage
return), as skipped by `JSON.parse`. -/
def isJsonWs (c : Char) : Bool :=
  c == ' ' || c == '\t' || c == '\n' || c == '\r'

/-- Drop leading JSON whitespace. -/
def skipWs : List Char → List Char
  | [] => []
  | c :: cs => if isJsonWs c then skipWs cs else c :: cs

/-- Value of one hexadecimal digit, for `\uXXXX` escapes. -/
def hexDigitVal (c : Char) : Option Nat :=
  if '0' ≤ c ∧ c ≤ '9' then some (c.toNat - '0'.toNat)
  else if 'a' ≤ c ∧ c ≤ 'f' then some (c.toNat - 'a'.toNat + 10)
  else if 'A' ≤ c ∧ c ≤ 'F' then some (c.toNat - 'A'.toNat + 10)
  else none

/-- ASCII decimal digit test, for JSON number lexemes. -/
def isDigit (c : Char) : Bool := '0' ≤ c && c ≤ '9'

/-- Split a maximal run of decimal digits off the front of the input. -/
def takeDigits : List Char → List Char × List Char
  | [] => ([], [])
  | c :: cs =>
    if isDigit c then
      let (ds, rest) := takeDigits cs
      (c :: ds, rest)
    else ([], c :: cs)

/-- Parse the body of a JSON string literal after its opening quote, handling
the escape sequences `JSON.parse` accepts and rejecting raw control
characters.  (`\uXXXX` escapes denoting UTF-16 surrogates are outside the
model: Lean characters are Unicode scalar values.) -/
def parseStringRest : Nat → List Char → List Char → Option (String × List Char)
  | 0, _, _ => none
  | _, [], _ => none
  | fuel + 1, c :: rest, acc =>
    if c == '"' then some (String.mk acc.reverse, rest)
    else if c == '\\' then
      match rest with
      | [] => none
      | e :: rest2 =>
        if e == '"' then parseStringRest fuel rest2 ('"' :: acc)
        else if e == '\\' then parseStringRest fuel rest2 ('\\' :: acc)
        else if e == '/' then parseStringRest fuel rest2 ('/' :: acc)
        else if e == 'b' then parseStringRest fuel rest2 ('\x08' :: acc)
        else if e == 'f' then parseStringRest fuel rest2 ('\x0c' :: acc)
        else if e == 'n' then parseStringRest fuel rest2 ('\n' :: acc)
        else if e == 'r' then parseStringRest fuel rest2 ('\r' :: acc)
        else if e == 't' then parseStringRest fuel rest2 ('\t' :: acc)
        else if e == 'u' then
          match rest2 with
          | h1 :: h2 :: h3 :: h4 :: rest3 =>
            match hexDigitVal h1, hexDigitVal h2, hexDigitVal h3, hexDigitVal h4 with
            | some a, some b, some c2, some d =>
              parseStringRest fuel rest3
                (Char.ofNat (((a * 16 + b) * 16 + c2) * 16 + d) :: acc)
            | _, _, _, _ => none
          | _ => none
        else none
    else if c.toNat < 0x20 then none
    else parseStringRest fuel rest (c :: acc)

/-- Parse the optional exponent part of a JSON number, given the lexeme
collected so far. -/
def parseExpPart (intFrac : List Char) (cs : List Char) : Option (String × List Char) :=
  match cs with
  | [] => some (String.mk intFrac, [])
  | e :: rest =>
    if e == 'e' || e == 'E' then
      let (sgn, rest2) :=
        match rest with
        | '+' :: r => (['+'], r)
        | '-' :: r => (['-'], r)
        | _ => (([] : List Char), rest)
      match takeDigits rest2 with
      | ([], _) => none
      | (ds, rest3) => some (String.mk (intFrac ++ e :: sgn ++ ds), rest3)
    else some (String.mk intFrac, cs)

/-- Parse the optional fraction part of a JSON number (at least one digit is
required after the dot), then the optional exponent. -/
def parseFracExp (intPart : List Char) (cs : List Char) : Option (String × List Char) :=
  match cs with
  | '.' :: rest =>
    match takeDigits rest with
    | ([], _) => none
    | (ds, rest2) => parseExpPart (intPart ++ '.' :: ds) rest2
  | _ => parseExpPart intPart cs

/-- Parse a JSON number lexeme (RFC 8259 grammar: optional minus, integer part
with no leading zero, optional fraction, optional exponent). -/
def parseNumber (cs : List Char) : Option (String × List Char) :=
  let (sign, cs1) :=
    match cs with
    | '-' :: rest => ((['-'] : List Char), rest)
    | _ => (([] : List Char), cs)
  match cs1 with
  | [] => none
  | c :: rest =>
    if c == '0' then parseFracExp (sign ++ ['0']) rest
    else if isDigit c then
      let (ds, rest2) := takeDigits rest
      parseFracExp (sign ++ c :: ds) rest2
    else none

mutual

/-- Fuel-indexed recursive-descent parser for one JSON value, following the
grammar `JSON.parse` implements. -/
def parseValue : Nat → List Char → Option (Json × List Char)
  | 0, _ => none
  | fuel + 1, cs =>
    match skipWs cs with
    | [] => none
    | c :: rest =>
      if c == 'n' then
        match rest with
        | 'u' :: 'l' :: 'l' :: r => some (Json.null, r)
        | _ => none
      else if c == 't' then
        match rest with
        | 'r' :: 'u' :: 'e' :: r => some (Json.bool true, r)
        | _ => none
      else if c == 'f' then
        match rest with
        | 'a' :: 'l' :: 's' :: 'e' :: r => some (Json.bool false, r)
        | _ => none
      else if c == '"' then
        match parseStringRest (rest.length + 1) rest [] with
        | some (s, r) => some (Json.str s, r)
        | none => none
      else if c == '-' || isDigit c then
        match parseNumber (c :: rest) with
        | some (lex, r) => some (Json.num lex, r)
        | none => none
      else if c == '[' then
        match skipWs rest with
        | ']' :: r => some (Json.arr [], r)
        | _ => parseElems fuel rest []
      else if c == '\x7b' then
        match skipWs rest with
        | '\x7d' :: r => some (Json.obj [], r)
        | _ => parseMembers fuel rest []
      else none

/-- Parse the comma-separated elements of a non-empty JSON array. -/
def parseElems : Nat → List Char → List Json → Option (Json × List Char)
  | 0, _, _ => none
  | fuel + 1, cs, acc =>
    match parseValue fuel cs with
    | none => none
    | some (v, rest) =>
      match skipWs rest with
      | ',' :: r => parseElems fuel r (v :: acc)
      | ']' :: r => some (Json.arr (v :: acc).reverse, r)
      | _ => none

/-- Parse the comma-separated members of a non-empty JSON object. -/
def parseMembers : Nat → List Char → List (String × Json) → Option (Json × List Char)
  | 0, _, _ => none
  | fuel + 1, cs, acc =>
    match skipWs cs with
    | '"' :: rest =>
      match parseStringRest (rest.length + 1) rest [] with
      | none => none
      | some (key, rest2) =>
        match skipWs rest2 with
        | ':' :: rest3 =>
          match parseValue fuel rest3 with
          | none => none
          | some (v, rest4) =>
            match skipWs rest4 with
            | ',' :: r => parseMembers fuel r ((key, v) :: acc)
            | '\x7d' :: r => some (Json.obj ((key, v) :: acc).reverse, r)
            | _ => none
        | _ => none
    | _ => none

end

/-- Model of `JSON.parse`: `some` of the parsed value when the whole input is
one valid JSON text, `none` when `JSON.parse` would throw a `SyntaxError`. -/
def jsonParse (raw : String) : Option Json :=
  match parseValue (raw.length + 1) raw.data with
  | some (v, rest) =>
    match skipWs rest with
    | [] => some v
    | _ => none
  | none => none

/-- The mutable component state of `App` (`src/App.js`, lines 23-25):
`messages` holds whatever values `JSON.parse` produced for inbound frames (the
feed), `carNumber` is the staged identifier text, `image` is the staged
attachment URI (`null` modelled as `none`). -/
structure AppState where
  messages : List Json
  carNumber : String
  image : Option String
deriving Repr

/-- Initial component state: `useState([])`, `useState('')`, `useState(null)`. -/
def initialState : AppState := ⟨[], "", none⟩

/-- Effect of `setMessages(prev => [...prev, data])` (line 55): append the
decoded event at the end of the feed. -/
def onMessageData (st : AppState) (data : Json) : AppState :=
  { st with messages := st.messages ++ [data] }

/-- The `ws.current.onmessage` handler body (lines 53-56): `JSON.parse` the
frame, then append.  There is no try/catch in the handler, so a parse failure
makes the `SyntaxError` escape the handler uncaught; that outcome is modelled
as `none` (no new state is produced and no error value is reported anywhere). -/
def onMessage (st : AppState) (raw : String) : Option AppState :=
  match jsonParse raw with
  | some data => some (onMessageData st data)
  | none => none

/-- Net effect of delivering one frame at the event-loop level: when the
handler throws, the component state is simply left unchanged and the channel
keeps delivering later frames. -/
def deliverFrame (st : AppState) (raw : String) : AppState :=
  match onMessage st raw with
  | some st2 => st2
  | none => st

/-- Model of the JavaScript expression `text.slice(0, 8)` (line 247): the
first 8 characters of `text` (all of it when it is shorter). -/
def sliceFirst8 (text : String) : String :=
  String.mk (text.data.take 8)

/-- The `TextInput` `onChangeText` callback (line 247):
`setCarNumber(text.slice(0, 8))`, keeping only the first 8 characters. -/
def onChangeCarNumber (st : AppState) (text : String) : AppState :=
  { st with carNumber := sliceFirst8 text }

/-- Effect of a completed image pick (`pickImage`/`takePhoto`, lines 92 and
117): `setImage(result.assets[0].uri)` replaces the staged attachment. -/
def stageImage (st : AppState) (uri : String) : AppState :=
  { st with image := some uri }

/-- Result of `fetch` when it resolved: the response status and the raw body
text that `response.json()` would parse.  `response.ok` is derived from the
status as the Fetch standard defines it. -/
structure HttpResponse where
  status : Nat
  body : String
deriving Repr, DecidableEq

/-- The Fetch standard `Response.ok`: status in the range 200-299. -/
def respOk (r : HttpResponse) : Bool :=
  decide (200 ≤ r.status ∧ r.status < 300)

/-- The `file` part appended to the `FormData` in `uploadImage`
(lines 133-137). -/
structure UploadFilePart where
  uri : String
  type : String
  name : String
deriving Repr, DecidableEq

/-- The multipart request body built by `uploadImage` (lines 132-142): the
`file` part always, the `car_number` field only when `carNumber` is truthy
(a non-empty string). -/
structure UploadRequest where
  file : UploadFilePart
  car_number : Option String
deriving Repr, DecidableEq

/-- The request body `uploadImage` builds for a staged image URI
(lines 132-142). -/
def mkUploadRequest (st : AppState) (uri : String) : UploadRequest :=
  { file := { uri := uri, type := "image/jpeg", name := "photo.jpg" }
    car_number := if st.carNumber = "" then none else some st.carNumber }

/-- Which `Alert.alert` call `uploadImage` ends in. -/
inductive UploadOutcome where
  /-- Alert "Error: Please select an image first" (line 127). -/
  | selectImageFirst : UploadOutcome
  /-- Alert "Error: Failed to upload image. Please try again." — the catch
  branch (line 160), reached when `fetch` throws, when `response.ok` is
  false, or when `response.json()` fails. -/
  | uploadFailed : UploadOutcome
  /-- Alert "Success: Image uploaded successfully" (line 157). -/
  | uploadSuccess : UploadOutcome
deriving Repr, DecidableEq

/-- Everything observable about one `uploadImage` call: the resulting
component state, the request that was handed to `fetch` (`none` when the
guard failed before any network call), and the alert shown. -/
structure UploadEffect where
  state : AppState
  request : Option UploadRequest
  outcome : UploadOutcome
deriving Repr

/-- The `uploadImage` handler (lines 125-162), with the outcome of the single
`fetch` call passed explicitly (`none` models `fetch` rejecting).  The
`if (!image)` guard is JavaScript-falsy: it fires when `image` is `null` and
also when it is the empty string.  On a 2xx response the body is parsed by
`response.json()`; only when that succeeds does `setImage(null)` run — every
thrown error lands in the catch branch, which changes no state. -/
def uploadImage (st : AppState) (fetchResult : Option HttpResponse) : UploadEffect :=
  match st.image with
  | none => ⟨st, none, .selectImageFirst⟩
  | some uri =>
    if uri = "" then ⟨st, none, .selectImageFirst⟩
    else
      let req := mkUploadRequest st uri
      match fetchResult with
      | none => ⟨st, some req, .uploadFailed⟩
      | some resp =>
        if respOk resp then
          match jsonParse resp.body with
          | some _ => ⟨{ st with image := none }, some req, .uploadSuccess⟩
          | none => ⟨st, some req, .uploadFailed⟩
        else ⟨st, some req, .uploadFailed⟩

/-- Which `Alert.alert` call `sendCarNumber` ends in. -/
inductive SendOutcome where
  /-- Alert "Error: Please enter a car number" (line 166). -/
  | enterCarNumberFirst : SendOutcome
  /-- Alert "Error: Failed to send car number. Please try again." — the catch
  branch (line 191). -/
  | sendFailed : SendOutcome
  /-- Alert "Success: Car number sent successfully" (line 188). -/
  | sendSuccess : SendOutcome
deriving Repr, DecidableEq

/-- Everything observable about one `sendCarNumber` call: resulting state, the
JSON body handed to `fetch` (`none` when the guard failed before any network
call), and the alert shown. -/
structure SendEffect where
  state : AppState
  request : Option Json
  outcome : SendOutcome
deriving Repr

/-- The JSON body `sendCarNumber` serializes (lines 176-180): exactly the
fields `message`, `timestamp`, `car_number`, where `now` stands for the
`new Date().toISOString()` value. -/
def sendCarNumberBody (carNumber now : String) : Json :=
  Json.obj
    [("message", Json.str ("Car number submitted: " ++ carNumber)),
     ("timestamp", Json.str now),
     ("car_number", Json.str carNumber)]

/-- The `sendCarNumber` handler (lines 164-193), with the clock reading and
the `fetch` outcome passed explicitly.  The `if (!carNumber)` guard fires
exactly on the empty string.  `response.json()` is never called: any `ok`
response clears `carNumber`; `fetch` rejection or a non-ok response throws
into the catch branch, which changes no state. -/
def sendCarNumber (st : AppState) (now : String) (fetchResult : Option HttpResponse) :
    SendEffect :=
  if st.carNumber = "" then ⟨st, none, .enterCarNumberFirst⟩
  else
    let body := sendCarNumberBody st.carNumber now
    match fetchResult with
    | none => ⟨st, some body, .sendFailed⟩
    | some resp =>
      if respOk resp then ⟨{ st with carNumber := "" }, some body, .sendSuccess⟩
      else ⟨st, some body, .sendFailed⟩

/-- Every operation of `App.js` that can change the component state. -/
inductive Op where
  /-- An inbound push frame delivered to `ws.current.onmessage`. -/
  | pushFrame (raw : String) : Op
  /-- The identifier `TextInput` edited to `text`. -/
  | changeCarNumber (text : String) : Op
  /-- `pickImage`/`takePhoto` completing with an asset URI. -/
  | imagePicked (uri : String) : Op
  /-- One `uploadImage` call with the given `fetch` outcome. -/
  | doUpload (fetchResult : Option HttpResponse) : Op
  /-- One `sendCarNumber` call with the given clock reading and `fetch`
  outcome. -/
  | doSendCarNumber (now : String) (fetchResult : Option HttpResponse) : Op

/-- State transition of one operation. -/
def applyOp (st : AppState) : Op → AppState
  | .pushFrame raw => deliverFrame st raw
  | .changeCarNumber text => onChangeCarNumber st text
  | .imagePicked uri => stageImage st uri
  | .doUpload r => (uploadImage st r).state
  | .doSendCarNumber now r => (sendCarNumber st now r).state

/-! Helper lemmas shared by several theorems below: the action handlers never
touch the feed, `uploadImage` never touches the identifier, and `sendCarNumber`
never touches the staged image. -/

theorem uploadImage_state_messages (st : AppState) (r : Option HttpResponse) :
    (uploadImage st r).state.messages = st.messages := by
  obtain ⟨ms, cn, img⟩ := st
  cases img with
  | none => rfl
  | some uri =>
    simp only [uploadImage]
    split
    · rfl
    · cases r with
      | none => rfl
      | some resp =>
        simp only []
        split
        · split <;> rfl
        · rfl

theorem uploadImage_state_carNumber (st : AppState) (r : Option HttpResponse) :
    (uploadImage st r).state.carNumber = st.carNumber := by
  obtain ⟨ms, cn, img⟩ := st
  cases img with
  | none => rfl
  | some uri =>
    simp only [uploadImage]
    split
    · rfl
    · cases r with
      | none => rfl
      | some resp =>
        simp only []
        split
        · split <;> rfl
        · rfl

theorem sendCarNumber_state_messages (st : AppState) (now : String) (r : Option HttpResponse) :
    (sendCarNumber st now r).state.messages = st.messages := by
  simp only [sendCarNumber]
  split
  · rfl
  · cases r with
    | none => rfl
    | some resp =>
      simp only []
      split <;> rfl

theorem sendCarNumber_state_image (st : AppState) (now : String) (r : Option HttpResponse) :
    (sendCarNumber st now r).state.image = st.image := by
  simp only [sendCarNumber]
  split
  · rfl
  · cases r with
    | none => rfl
    | some resp =>
      simp only []
      split <;> rfl

/-- C1: delivering any sequence of decodable push frames appends exactly the
decoded events to the feed in arrival order — the embedded timestamps play no
role — and no operation of the app ever mutates or removes an entry already in
the feed: every operation extends the feed on the right. -/
theorem feed_append_only :
    (∀ (st : AppState) (raws : List String) (events : List Json),
      raws.map jsonParse = events.map some →
      (raws.foldl deliverFrame st).messages = st.messages ++ events) ∧
    (∀ (st : AppState) (op : Op), ∃ t, (applyOp st op).messages = st.messages ++ t) := by
  constructor
  · intro st raws
    induction raws generalizing st with
    | nil =>
      intro events h
      cases events with
      | nil => simp
      | cons e es => simp at h
    | cons r rs ih =>
      intro events h
      cases events with
      | nil => simp at h
      | cons e es =>
        simp only [List.map_cons, List.cons.injEq] at h
        obtain ⟨h1, h2⟩ := h
        have hd : deliverFrame st r = onMessageData st e := by
          simp [deliverFrame, onMessage, h1]
        simp only [List.foldl_cons, hd]
        rw [ih _ es h2]
        simp [onMessageData]
  · intro st op
    cases op with
    | pushFrame raw =>
      cases h : jsonParse raw with
      | none => exact ⟨[], by simp [applyOp, deliverFrame, onMessage, h]⟩
      | some d => exact ⟨[d], by simp [applyOp, deliverFrame, onMessage, h, onMessageData]⟩
    | changeCarNumber t => exact ⟨[], by simp [applyOp, onChangeCarNumber]⟩
    | imagePicked uri => exact ⟨[], by simp [applyOp, stageImage]⟩
    | doUpload r => exact ⟨[], by simp [applyOp, uploadImage_state_messages]⟩
    | doSendCarNumber now r => exact ⟨[], by simp [applyOp, sendCarNumber_state_messages]⟩

/-- Witness for C1: two concrete frames — an object carrying a message and a
bare number — end up in the feed in arrival order. -/
theorem feed_append_only_witness :
    (([" \x7b\"message\":\"hi\"\x7d", "3"].foldl deliverFrame initialState).messages
      = [Json.obj [("message", Json.str "hi")], Json.num "3"]) := by
  have h := feed_append_only.1 initialState [" \x7b\"message\":\"hi\"\x7d", "3"]
    [Json.obj [("message", Json.str "hi")], Json.num "3"] (by rfl)
  simpa [initialState] using h

/-- C2 counterexample: on the concrete undecodable frame consisting of a lone
opening brace, `JSON.parse` fails and the `onmessage` handler — which has no
try/catch — produces no new state and reports no error value: the `SyntaxError`
escapes the handler, contradicting the claim that a `ProtocolError` is
reported and that no exception escapes. -/
theorem decode_error_escapes_cx :
    jsonParse "\x7b" = none ∧ onMessage initialState "\x7b" = none := ⟨rfl, rfl⟩

/-- C2 (amended): for every push frame whose payload is not valid JSON, the
handler throws the decode error (no ProtocolError value is reported; the
exception escapes the handler uncaught), the feed and the rest of the state
are left unchanged, and the channel remains usable: a subsequent decodable
frame is appended exactly as if the bad frame had never arrived. -/
theorem decode_failure_not_caught (st : AppState) (raw : String)
    (h : jsonParse raw = none) :
    onMessage st raw = none ∧ deliverFrame st raw = st ∧
    (∀ raw2 d, jsonParse raw2 = some d →
      deliverFrame (deliverFrame st raw) raw2 = onMessageData st d) := by
  refine ⟨by simp [onMessage, h], by simp [deliverFrame, onMessage, h], ?_⟩
  intro raw2 d h2
  simp [deliverFrame, onMessage, h, h2]

/-- Witness for the amended C2 at the concrete undecodable frame "not json". -/
theorem decode_failure_not_caught_witness :
    onMessage initialState "not json" = none ∧
    deliverFrame initialState "not json" = initialState :=
  ⟨(decode_failure_not_caught initialState "not json" rfl).1,
   (decode_failure_not_caught initialState "not json" rfl).2.1⟩

/-- C3: when an image is staged (a non-empty URI — the guard treats the empty
string like `null`) and the upload gets a 2xx response with a decodable JSON
body, the staged image is cleared while the staged identifier — whatever its
value — and the feed are left unchanged. -/
theorem upload_ack_clears_image_only (st : AppState) (uri : String) (resp : HttpResponse)
    (d : Json) (himg : st.image = some uri) (hne : uri ≠ "")
    (hok : respOk resp = true) (hbody : jsonParse resp.body = some d) :
    (uploadImage st (some resp)).state.image = none ∧
    (uploadImage st (some resp)).state.carNumber = st.carNumber ∧
    (uploadImage st (some resp)).state.messages = st.messages ∧
    (uploadImage st (some resp)).outcome = .uploadSuccess := by
  simp [uploadImage, himg, hne, hok, hbody]

/-- Witness for C3: a staged image and independently staged identifier "CAR1";
a 200 response with body "\x7b\x7d" clears the image and keeps the identifier. -/
theorem upload_ack_clears_image_only_witness :
    (uploadImage ⟨[], "CAR1", some "file:a"⟩ (some ⟨200, "\x7b\x7d"⟩)).state.image = none ∧
    (uploadImage ⟨[], "CAR1", some "file:a"⟩ (some ⟨200, "\x7b\x7d"⟩)).state.carNumber = "CAR1" :=
  have h := upload_ack_clears_image_only ⟨[], "CAR1", some "file:a"⟩ "file:a"
    ⟨200, "\x7b\x7d"⟩ (Json.obj []) rfl (by decide) (by rfl) (by rfl)
  ⟨h.1, h.2.1⟩

/-- C4: when the staged identifier is non-empty and `sendCarNumber` ends in a
transport error — `fetch` rejecting, or a non-2xx response — the whole
component state, the staged identifier included, is exactly what it was before
the call, and the failure alert is shown. -/
theorem send_transport_error_preserves_state (st : AppState) (now : String)
    (r : Option HttpResponse) (hne : st.carNumber ≠ "")
    (herr : r = none ∨ ∃ resp, r = some resp ∧ respOk resp = false) :
    (sendCarNumber st now r).state = st ∧
    (sendCarNumber st now r).outcome = .sendFailed := by
  rcases herr with h | ⟨resp, hr, hko⟩
  · subst h; simp [sendCarNumber, hne]
  · subst hr; simp [sendCarNumber, hne, hko]

/-- Witness for C4: a 500 response leaves the state with identifier "AB"
untouched. -/
theorem send_transport_error_preserves_state_witness :
    (sendCarNumber ⟨[], "AB", none⟩ "T" (some ⟨500, ""⟩)).state = ⟨[], "AB", none⟩ :=
  (send_transport_error_preserves_state ⟨[], "AB", none⟩ "T" (some ⟨500, ""⟩)
    (by decide) (Or.inr ⟨⟨500, ""⟩, rfl, by rfl⟩)).1

/-- C5: calling `uploadImage` with no staged image fails on the validation
guard: the validation alert is shown, no request is handed to `fetch`, and the
component state — staged image and staged identifier included — is unchanged. -/
theorem upload_no_image_validation (st : AppState) (r : Option HttpResponse)
    (h : st.image = none) :
    uploadImage st r = ⟨st, none, .selectImageFirst⟩ := by
  simp [uploadImage, h]

/-- Witness for C5 at the initial state. -/
theorem upload_no_image_validation_witness :
    uploadImage initialState none = ⟨initialState, none, .selectImageFirst⟩ :=
  upload_no_image_validation initialState none rfl

/-- C6: the identifier input callback stores exactly the first 8 characters of
the typed text — the identity on strings of length at most 8 — and in
particular typing "ABCDEFGHIJ" stages "ABCDEFGH". -/
theorem stage_identifier_truncates (st : AppState) (text : String) :
    (onChangeCarNumber st text).carNumber.data = text.data.take 8 ∧
    (text.length ≤ 8 → (onChangeCarNumber st text).carNumber = text) ∧
    (onChangeCarNumber st "ABCDEFGHIJ").carNumber = "ABCDEFGH" := by
  refine ⟨rfl, ?_, rfl⟩
  intro h
  cases text with
  | mk l =>
    simp only [onChangeCarNumber, sliceFirst8]
    exact congrArg String.mk (List.take_of_length_le h)

/-- Witness for C6: "CAR1" is kept whole, "ABCDEFGHIJ" is truncated. -/
theorem stage_identifier_truncates_witness :
    (onChangeCarNumber initialState "CAR1").carNumber = "CAR1" ∧
    (onChangeCarNumber initialState "ABCDEFGHIJ").carNumber = "ABCDEFGH" :=
  ⟨(stage_identifier_truncates initialState "CAR1").2.1 (by decide),
   (stage_identifier_truncates initialState "ABCDEFGHIJ").2.2⟩

/-- C7: with an empty staged identifier, `sendCarNumber` fails on the
validation guard — validation alert, no request handed to `fetch`, state
unchanged; with a non-empty one the submission is attempted, and the
identifier ends up cleared exactly when the response was a 2xx. -/
theorem send_guard_and_clear (st : AppState) (now : String) (r : Option HttpResponse) :
    (st.carNumber = "" → sendCarNumber st now r = ⟨st, none, .enterCarNumberFirst⟩) ∧
    (st.carNumber ≠ "" →
      (sendCarNumber st now r).request = some (sendCarNumberBody st.carNumber now) ∧
      ((sendCarNumber st now r).state.carNumber = "" ↔
        ∃ resp, r = some resp ∧ respOk resp = true)) := by
  constructor
  · intro h
    simp [sendCarNumber, h]
  · intro h
    cases r with
    | none => simp [sendCarNumber, h]
    | some resp =>
      by_cases hok : respOk resp = true
      · simp [sendCarNumber, h, hok]
      · simp [sendCarNumber, h, hok]

/-- Witness for C7: the empty identifier only alerts; the identifier "AB" is
cleared by a 204 response. -/
theorem send_guard_and_clear_witness :
    sendCarNumber initialState "T" none = ⟨initialState, none, .enterCarNumberFirst⟩ ∧
    (sendCarNumber ⟨[], "AB", none⟩ "T" (some ⟨204, ""⟩)).state.carNumber = "" :=
  ⟨(send_guard_and_clear initialState "T" none).1 rfl,
   ((send_guard_and_clear ⟨[], "AB", none⟩ "T" (some ⟨204, ""⟩)).2 (by decide)).2.mpr
     ⟨⟨204, ""⟩, rfl, by rfl⟩⟩

/-- C8: for a non-empty staged identifier the submit-identifier request body
is a JSON object with exactly the fields `message` (the display string
"Car number submitted: " followed by the identifier), `timestamp` (the
`toISOString()` clock reading), and `car_number` (the identifier itself); the
call succeeds exactly when the response status is in the 2xx range. -/
theorem send_request_shape (st : AppState) (now : String) (r : Option HttpResponse)
    (h : st.carNumber ≠ "") :
    (sendCarNumber st now r).request =
      some (Json.obj
        [("message", Json.str ("Car number submitted: " ++ st.carNumber)),
         ("timestamp", Json.str now),
         ("car_number", Json.str st.carNumber)]) ∧
    (∀ resp, r = some resp →
      (((sendCarNumber st now r).outcome = .sendSuccess ↔ respOk resp = true) ∧
       (respOk resp = true ↔ (200 ≤ resp.status ∧ resp.status < 300)))) := by
  constructor
  · cases r with
    | none => simp [sendCarNumber, h, sendCarNumberBody]
    | some resp =>
      by_cases hok : respOk resp = true <;>
        simp [sendCarNumber, h, hok, sendCarNumberBody]
  · intro resp hr
    subst hr
    constructor
    · by_cases hok : respOk resp = true <;> simp [sendCarNumber, h, hok]
    · simp [respOk]

/-- Witness for C8: the concrete body sent for identifier "XYZ1". -/
theorem send_request_shape_witness :
    (sendCarNumber ⟨[], "XYZ1", none⟩ "2024-01-01T00:00:00.000Z" (some ⟨200, ""⟩)).request =
      some (Json.obj
        [("message", Json.str "Car number submitted: XYZ1"),
         ("timestamp", Json.str "2024-01-01T00:00:00.000Z"),
         ("car_number", Json.str "XYZ1")]) :=
  (send_request_shape ⟨[], "XYZ1", none⟩ "2024-01-01T00:00:00.000Z" (some ⟨200, ""⟩)
    (by decide)).1

/-- C9: the feed is appended to only by the push-channel message handler — no
code path of `uploadImage` or `sendCarNumber`, success or failure, inserts an
entry, and any operation either leaves the feed untouched or is the delivery
of a decodable push frame appending exactly that decoded event. -/
theorem feed_only_from_push :
    (∀ (st : AppState) (r : Option HttpResponse),
       (uploadImage st r).state.messages = st.messages) ∧
    (∀ (st : AppState) (now : String) (r : Option HttpResponse),
       (sendCarNumber st now r).state.messages = st.messages) ∧
    (∀ (st : AppState) (op : Op),
       (applyOp st op).messages = st.messages ∨
       ∃ raw d, op = Op.pushFrame raw ∧ jsonParse raw = some d ∧
         (applyOp st op).messages = st.messages ++ [d]) := by
  refine ⟨uploadImage_state_messages, sendCarNumber_state_messages, ?_⟩
  intro st op
  cases op with
  | pushFrame raw =>
    cases h : jsonParse raw with
    | none => exact Or.inl (by simp [applyOp, deliverFrame, onMessage, h])
    | some d =>
      exact Or.inr ⟨raw, d, rfl, h, by simp [applyOp, deliverFrame, onMessage, h, onMessageData]⟩
  | changeCarNumber t => exact Or.inl rfl
  | imagePicked uri => exact Or.inl rfl
  | doUpload r => exact Or.inl (uploadImage_state_messages st r)
  | doSendCarNumber now r => exact Or.inl (sendCarNumber_state_messages st now r)

/-- C10: whenever `uploadImage` builds a request (an image is staged), the
request carries a `car_number` field exactly when the staged identifier is
non-empty — an empty staged identifier is indistinguishable from an absent one
at the submit-image interface. -/
theorem upload_request_car_number_field (st : AppState) (uri : String)
    (r : Option HttpResponse) (himg : st.image = some uri) (hne : uri ≠ "") :
    (uploadImage st r).request = some (mkUploadRequest st uri) ∧
    ((mkUploadRequest st uri).car_number = none ↔ st.carNumber = "") ∧
    (st.carNumber ≠ "" → (mkUploadRequest st uri).car_number = some st.carNumber) := by
  refine ⟨?_, ?_, ?_⟩
  · cases r with
    | none => simp [uploadImage, himg, hne]
    | some resp =>
      by_cases hok : respOk resp = true
      · cases hbody : jsonParse resp.body <;> simp [uploadImage, himg, hne, hok, hbody]
      · simp [uploadImage, himg, hne, hok]
  · by_cases hc : st.carNumber = "" <;> simp [mkUploadRequest, hc]
  · intro hc
    simp [mkUploadRequest, hc]

/-- Witness for C10: with identifier "" the request has no `car_number` field;
with identifier "AB" it carries it. -/
theorem upload_request_car_number_field_witness :
    (uploadImage ⟨[], "", some "file:a"⟩ none).request =
      some ⟨⟨"file:a", "image/jpeg", "photo.jpg"⟩, none⟩ ∧
    (uploadImage ⟨[], "AB", some "file:a"⟩ none).request =
      some ⟨⟨"file:a", "image/jpeg", "photo.jpg"⟩, some "AB"⟩ :=
  ⟨(upload_request_car_number_field ⟨[], "", some "file:a"⟩ "file:a" none rfl (by decide)).1,
   (upload_request_car_number_field ⟨[], "AB", some "file:a"⟩ "file:a" none rfl (by decide)).1⟩

end CarApp
